import Mathlib

/-!
Shallow embedding of `src/backend_server.py` (MirrorWorld AI Backend):
an in-memory job registry (`jobs : Dict[str, Dict]`), a staged avatar
processing pipeline (`ProcessingPipeline.process_image` and its stage
helpers), and the HTTP handlers `process_avatar`, `get_processing_status`
and `get_asset`.

Python floats in the source are all small decimal literals used only as
constants and compared by order; they are embedded as rationals (`ℚ`).
Dictionaries keyed by job id are embedded as association lists; the
`jobs[k] = v` assignment and `dict.update` calls become explicit state
transformations on a `Job` record.

The only suspension points of a pipeline run are the `await` calls inside
the stage helpers (each helper first performs its registry write, then
awaits its simulated work).  An exception escaping a stage handler can
therefore surface only at one of those awaits; runs are parametrised by an
optional injected failure `(k, msg)`: the simulated work following the
k-th stage write raises an exception whose `str` is `msg`.
-/

namespace BackendServer

/-- One entry of `ProcessingPipeline.STAGES`: `(name, label, target progress)`
(source lines 32-42). -/
structure StageDef where
  name : String
  label : String
  targetProgress : ℚ
deriving DecidableEq, Repr

/-- `ProcessingPipeline.STAGES` (source lines 32-42). -/
def STAGES : List StageDef :=
  [⟨"uploading", "Uploading to backend...", 0.1⟩,
   ⟨"segmentation", "MODNet person segmentation...", 0.2⟩,
   ⟨"depth_analysis", "MiDaS depth estimation...", 0.3⟩,
   ⟨"mesh_generation", "RenderNet 3D mesh creation...", 0.5⟩,
   ⟨"texture_mapping", "PIKE texture generation...", 0.7⟩,
   ⟨"rigging", "Adding facial blendshapes...", 0.8⟩,
   ⟨"animation", "Injecting breathing & micro-motions...", 0.9⟩,
   ⟨"unity_prep", "Preparing for Unity import...", 0.95⟩,
   ⟨"completed", "Ready for 3D world!", 1.0⟩]

/-- `facialStructure` block of the result metadata (source line 88). -/
structure FacialStructure where
  jawWidth : ℚ
  eyeDistance : ℚ
deriving DecidableEq, Repr

/-- `facialFeatures` block of the result metadata (source lines 85-90). -/
structure FacialFeatures where
  eyeColor : String
  skinTone : String
  facialStructure : FacialStructure
  expressionCapabilities : List String
deriving DecidableEq, Repr

/-- `proportions` block of the result metadata (source line 93). -/
structure BodyProportions where
  shoulderWidth : ℚ
  waistWidth : ℚ
deriving DecidableEq, Repr

/-- `postureData` block of the result metadata (source line 94). -/
structure PostureData where
  spineAlignment : ℚ
deriving DecidableEq, Repr

/-- `bodyMeasurements` block of the result metadata (source lines 91-95). -/
structure BodyMeasurements where
  height : ℚ
  proportions : BodyProportions
  postureData : PostureData
deriving DecidableEq, Repr

/-- `microMotions` block of the result metadata (source line 99). -/
structure MicroMotions where
  headSway : ℚ
  weightShift : ℚ
deriving DecidableEq, Repr

/-- `animationConfig` block of the result metadata (source lines 96-101). -/
structure AnimationConfig where
  breathingRate : ℚ
  blinkFrequency : ℚ
  microMotions : MicroMotions
  idlePoses : List String
deriving DecidableEq, Repr

/-- `metadata` block of the result payload (source lines 84-102). -/
structure AssetMetadata where
  facialFeatures : FacialFeatures
  bodyMeasurements : BodyMeasurements
  animationConfig : AnimationConfig
deriving DecidableEq, Repr

/-- The `assets` value written by the final update of `process_image`
(source lines 80-103): three addressable locations plus the nested
`metadata` object. -/
structure Assets where
  modelURL : String
  textureURL : String
  animationData : String
  metadata : AssetMetadata
deriving DecidableEq, Repr

/-- The concrete `assets` payload assembled for job `job_id` on success
(source lines 80-103, the f-strings interpolate `job_id`). -/
def successAssets (job_id : String) : Assets :=
  { modelURL :=
      "https://api.mirrorworld-backend.replit.app/assets/" ++ job_id ++ "/model.glb"
    textureURL :=
      "https://api.mirrorworld-backend.replit.app/assets/" ++ job_id ++ "/texture.jpg"
    animationData :=
      "https://api.mirrorworld-backend.replit.app/assets/" ++ job_id ++ "/animations.json"
    metadata :=
      { facialFeatures :=
          { eyeColor := "brown"
            skinTone := "medium"
            facialStructure := { jawWidth := 0.8, eyeDistance := 0.6 }
            expressionCapabilities := ["smile", "blink", "frown"] }
        bodyMeasurements :=
          { height := 1.75
            proportions := { shoulderWidth := 0.45, waistWidth := 0.35 }
            postureData := { spineAlignment := 0.9 } }
        animationConfig :=
          { breathingRate := 16.0
            blinkFrequency := 15.0
            microMotions := { headSway := 0.3, weightShift := 0.2 }
            idlePoses := ["neutral", "slight_lean", "hand_on_hip"] } } }

/-- The per-job dictionary stored in `jobs` (source lines 49-55 fix its keys:
`status`, `current_stage`, `progress`, `is_completed`, `error`; the `assets`
key is added by the final update, line 80). Optional keys are `Option`. -/
structure Job where
  status : String
  current_stage : String
  progress : ℚ
  is_completed : Bool
  assets : Option Assets
  error : Option String
deriving DecidableEq, Repr

/-- The global `jobs : Dict[str, Dict[str, Any]]` map (source line 19),
embedded as an association list from job id to `Job`. -/
abbrev Jobs := List (String × Job)

/-- Python dictionary lookup `jobs[k]` / `k in jobs`, as an `Option`. -/
def getJob : Jobs → String → Option Job
  | [], _ => none
  | (k, v) :: rest, id => if k = id then some v else getJob rest id

/-- Python dictionary assignment `jobs[k] = v`: replaces the entry for `k`
if present, otherwise appends it. -/
def setJob : Jobs → String → Job → Jobs
  | [], id, j => [(id, j)]
  | (k, v) :: rest, id, j =>
      if k = id then (id, j) :: rest else (k, v) :: setJob rest id j

/-- The dictionary literal assigned by the initialization write at the top
of `process_image` (source lines 49-55). -/
def initJob : Job :=
  { status := "processing"
    current_stage := "uploading"
    progress := 0.1
    is_completed := false
    assets := none
    error := none }

/-- A stage write `jobs[job_id].update({"current_stage": w.1, "progress": w.2})`
as performed by every stage helper (e.g. source lines 115-118). -/
def applyStageWrite (j : Job) (w : String × ℚ) : Job :=
  { j with current_stage := w.1, progress := w.2 }

/-- Registry writes performed by `segment_person` (source lines 112-128):
one stage update, then the simulated MODNet work. -/
def segment_person : List (String × ℚ) := [("segmentation", 0.2)]

/-- Registry writes performed by `estimate_depth` (source lines 130-145). -/
def estimate_depth : List (String × ℚ) := [("depth_analysis", 0.3)]

/-- Registry writes performed by `generate_3d_mesh` (source lines 147-162). -/
def generate_3d_mesh : List (String × ℚ) := [("mesh_generation", 0.5)]

/-- Registry writes performed by `apply_textures` (source lines 164-179). -/
def apply_textures : List (String × ℚ) := [("texture_mapping", 0.7)]

/-- Registry writes performed by `add_animations` (source lines 181-204):
two stage updates, each followed by simulated work. -/
def add_animations : List (String × ℚ) := [("rigging", 0.8), ("animation", 0.9)]

/-- Registry writes performed by `prepare_for_unity` (source lines 206-221). -/
def prepare_for_unity : List (String × ℚ) := [("unity_prep", 0.95)]

/-- All stage writes of the helpers called by `process_image`, in call order
(source lines 57-73). Each write is followed by an `await` of simulated
work, which is where an injected handler exception can surface. -/
def handlerWrites : List (String × ℚ) :=
  segment_person ++ estimate_depth ++ generate_3d_mesh ++
    apply_textures ++ add_animations ++ prepare_for_unity

/-- `foldl` of the stage writes: the job state after performing them all. -/
def applyWrites (j : Job) (ws : List (String × ℚ)) : Job :=
  ws.foldl applyStageWrite j

/-- Snapshot after each write: `scanStates j ws` lists the job state before
any write of `ws` and after each successive write. -/
def scanStates (j : Job) : List (String × ℚ) → List Job
  | [] => [j]
  | w :: ws => j :: scanStates (applyStageWrite j w) ws

/-- The final success update of `process_image` (source lines 76-104). -/
def finishJob (job_id : String) (j : Job) : Job :=
  { j with current_stage := "completed"
           progress := 1.0
           is_completed := true
           assets := some (successAssets job_id) }

/-- The `except` branch of `process_image` (source lines 106-110):
`jobs[job_id].update({"error": str(e), "is_completed": True})`. It touches
neither `current_stage` nor `progress` nor `assets`. -/
def failJob (msg : String) (j : Job) : Job :=
  { j with error := some msg, is_completed := true }

/-- Trace of job states written by `ProcessingPipeline.process_image`
(source lines 44-110), one snapshot per registry write of this job.
`failAt = none`: no handler fails; the run performs the initialization
write, all seven stage writes, and the final success update.
`failAt = some (k, msg)`: the simulated work after the k-th stage write
(0-indexed into `handlerWrites`) raises an exception with message `msg`;
the `except` branch then performs the failure write and the run halts. -/
def process_image (job_id : String) (failAt : Option (Nat × String)) : List Job :=
  match failAt with
  | none =>
      scanStates initJob handlerWrites ++
        [finishJob job_id (applyWrites initJob handlerWrites)]
  | some (k, msg) =>
      scanStates initJob (handlerWrites.take (k + 1)) ++
        [failJob msg (applyWrites initJob (handlerWrites.take (k + 1)))]

/-- The job state stored in the registry once a `process_image` run has
terminated: the last snapshot of its trace. -/
def finalState (job_id : String) (failAt : Option (Nat × String)) : Job :=
  (process_image job_id failAt).getLastD initJob

/-- The initialization write at the top of `process_image` (source line 49):
a plain dict assignment `jobs[job_id] = {...}`, which overwrites any
existing entry for `job_id` unconditionally — the code performs no
duplicate-id check anywhere. -/
def createJob (registry : Jobs) (job_id : String) : Jobs :=
  setJob registry job_id initJob

/-- `fastapi.HTTPException` as raised by the handlers: a status code and a
detail string. -/
structure HTTPException where
  status_code : Nat
  detail : String
deriving DecidableEq, Repr

/-- The JSON body returned by `process_avatar` on success
(source lines 240-244). -/
structure AvatarResponse where
  jobId : String
  estimatedTime : Nat
  message : String
deriving DecidableEq, Repr

/-- The `POST /api/v1/process-avatar` handler (source lines 223-247).
It generates a fresh uuid4 (here the parameter `freshId`), reads the upload,
parses the config, and schedules `process_image` with
`asyncio.create_task` WITHOUT awaiting it: the scheduled coroutine does not
run before the handler returns, so no registry write happens before the
response. The handler returns the response together with the registry as it
stands at return time — unchanged. -/
def process_avatar (registry : Jobs) (freshId : String) : AvatarResponse × Jobs :=
  ({ jobId := freshId, estimatedTime := 120, message := "Avatar generation started" },
   registry)

/-- A Python value stored under a key of the assets dict: either a string
(the three URL entries) or the nested `metadata` dictionary. -/
inductive AssetValue
  | str (s : String)
  | dict (m : AssetMetadata)
deriving DecidableEq, Repr

/-- The items of the stored assets dict (source lines 80-103), in
insertion order, as the Python values they are: three strings and one
nested dictionary. -/
def Assets.items (a : Assets) : List (String × AssetValue) :=
  [("modelURL", AssetValue.str a.modelURL),
   ("textureURL", AssetValue.str a.textureURL),
   ("animationData", AssetValue.str a.animationData),
   ("metadata", AssetValue.dict a.metadata)]

/-- A pydantic validation error: location of the offending field and the
message. -/
structure ValidationError where
  loc : List String
  msg : String
deriving DecidableEq, Repr

/-- pydantic coercion of a stored value to `str`, the declared value type
of `assets: Optional[Dict[str, str]]` (source line 26): a string passes
through; a dictionary is not coercible to `str` and fails validation. -/
def coerceToStr (key : String) : AssetValue → Except ValidationError String
  | AssetValue.str s => Except.ok s
  | AssetValue.dict _ =>
      Except.error { loc := ["assets", key], msg := "str type expected" }

/-- pydantic validation of the items of a `Dict[str, str]` field: every
value must coerce to `str`. -/
def validateStrDict :
    List (String × AssetValue) → Except ValidationError (List (String × String))
  | [] => Except.ok []
  | (k, v) :: rest =>
      match coerceToStr k v with
      | Except.error e => Except.error e
      | Except.ok s =>
          match validateStrDict rest with
          | Except.error e => Except.error e
          | Except.ok tail => Except.ok ((k, s) :: tail)

/-- pydantic validation of the `assets` field of `JobStatus` against its
declared type `Optional[Dict[str, str]]` (source line 26): Python `None`
passes; a stored dict is validated value by value. -/
def validateAssets :
    Option Assets → Except ValidationError (Option (List (String × String)))
  | none => Except.ok none
  | some a =>
      match validateStrDict a.items with
      | Except.error e => Except.error e
      | Except.ok d => Except.ok (some d)

/-- The pydantic `JobStatus` response model (source lines 21-27), with the
field types it declares: `assets` is `Optional[Dict[str, str]]`, embedded
as an optional string-to-string association list. -/
structure JobStatus where
  job_id : String
  current_stage : String
  progress : ℚ
  is_completed : Bool
  assets : Option (List (String × String))
  error : Option String
deriving DecidableEq, Repr

/-- The `GET /api/v1/status/{job_id}` handler (source lines 249-263):
404 when `job_id not in jobs`; otherwise it constructs
`JobStatus(job_id=..., assets=job.get("assets"), error=job.get("error"))`,
which validates the stored assets value against the declared
`Optional[Dict[str, str]]`. If validation raises — as it does whenever the
stored value nests the `metadata` dictionary — the `ValidationError`
escapes the handler and FastAPI answers HTTP 500 Internal Server Error. -/
def get_processing_status (registry : Jobs) (job_id : String) :
    Except HTTPException JobStatus :=
  match getJob registry job_id with
  | none => Except.error { status_code := 404, detail := "Job not found" }
  | some job =>
      match validateAssets job.assets with
      | Except.error _ =>
          Except.error { status_code := 500, detail := "Internal Server Error" }
      | Except.ok av =>
          Except.ok
            { job_id := job_id
              current_stage := job.current_stage
              progress := job.progress
              is_completed := job.is_completed
              assets := av
              error := job.error }

/-- The `GET /assets/{job_id}/{filename}` handler (source lines 265-270):
it unconditionally returns the placeholder JSON message
`f"Asset {filename} for job {job_id}"` and never raises. The registry is
passed to express that the handler, although the global `jobs` map is in
scope, does not consult it. -/
def get_asset (_registry : Jobs) (job_id filename : String) :
    Except HTTPException String :=
  Except.ok ("Asset " ++ filename ++ " for job " ++ job_id)

end BackendServer

namespace BackendServer

/-! ## Helper lemmas -/

/-- Dictionary assignment followed by lookup of the same key yields the
assigned value. -/
theorem getJob_setJob (r : Jobs) (id : String) (j : Job) :
    getJob (setJob r id j) id = some j := by
  induction r with
  | nil => simp [setJob, getJob]
  | cons hd tl ih =>
      obtain ⟨k, v⟩ := hd
      by_cases h : k = id
      · simp [setJob, getJob, h]
      · simp [setJob, getJob, h, ih]

/-! ## Claims -/

/-- C1, counterexample. The claim says the jobId returned by the
`POST /api/v1/process-avatar` handler is immediately valid for the status
query, even if the executor task has not yet performed its first write.
It is not: `process_avatar` schedules `process_image` without awaiting it
and performs no registry write itself, and the Job is first inserted by
`process_image`'s own initialization write. Starting from an empty
registry, immediately after the handler returns jobId "j" (the registry
still empty, the executor not yet run), querying "j" fails with the
not-found condition (HTTP 404). -/
theorem C1_submit_then_immediate_query_404 :
    (process_avatar [] "j").1.jobId = "j" ∧
    (process_avatar [] "j").2 = ([] : Jobs) ∧
    get_processing_status (process_avatar [] "j").2 "j" =
      Except.error { status_code := 404, detail := "Job not found" } :=
  ⟨rfl, rfl, rfl⟩

/-- C1, amended. `process_avatar` returns the fresh jobId having left the
registry untouched; the identifier becomes valid for the status query only
once the scheduled `process_image` task performs its first write (the
initialization assignment), after which the query returns the Job in its
initial state: `current_stage = "uploading"`, `progress = 0.1`,
`is_completed = false`, no assets, no error. -/
theorem C1_amended_valid_after_first_write (r : Jobs) (id : String) :
    (process_avatar r id).1.jobId = id ∧
    (process_avatar r id).2 = r ∧
    get_processing_status (createJob (process_avatar r id).2 id) id =
      Except.ok { job_id := id, current_stage := "uploading", progress := 0.1,
                  is_completed := false, assets := none, error := none } := by
  refine ⟨rfl, rfl, ?_⟩
  simp [get_processing_status, createJob, getJob_setJob, initJob, validateAssets]

/-- C2: if the stage handler work following the k-th stage write raises an
exception with message `msg`, the `except` branch of `process_image` writes
that message into `error` and sets `is_completed := true`; `current_stage`
and `progress` are left at the failing stage's name and target progress
(not rolled back), `assets` is never written, and the run halts: the trace
has exactly the initialization write, the k+1 stage writes performed so
far, and the failure write — no later stage runs. -/
theorem C2_handler_failure_terminal (job_id msg : String)
    (k : Fin handlerWrites.length) :
    (finalState job_id (some (k.val, msg))).error = some msg ∧
    (finalState job_id (some (k.val, msg))).is_completed = true ∧
    (finalState job_id (some (k.val, msg))).current_stage =
      (handlerWrites.get k).1 ∧
    (finalState job_id (some (k.val, msg))).progress = (handlerWrites.get k).2 ∧
    (finalState job_id (some (k.val, msg))).assets = none ∧
    (process_image job_id (some (k.val, msg))).length = k.val + 3 := by
  obtain ⟨kv, hk⟩ := k
  have hk7 : kv < 7 := hk
  interval_cases kv <;> exact ⟨rfl, rfl, rfl, rfl, rfl, rfl⟩

/-- C3: the executor half of the claim holds — a failure-free run's single
final update sets `current_stage = "completed"`, `progress = 1.0`,
`is_completed = true` and `assets` to the three addressable locations plus
the nested metadata block. The polling half does not hold on the code: the
stored assets value nests the `metadata` dictionary while the response
model declares `assets: Optional[Dict[str, str]]`, so constructing the
`JobStatus` for a completed job fails pydantic validation at
`assets -> metadata` ("str type expected") and the status query answers
HTTP 500 instead of the populated state — for every job id and every
registry, i.e. the success path of the status endpoint is unreachable. -/
theorem C3_completed_poll_validation_error (job_id : String) (r : Jobs) :
    finalState job_id none =
      { status := "processing", current_stage := "completed", progress := 1.0,
        is_completed := true, assets := some (successAssets job_id),
        error := none } ∧
    validateAssets (some (successAssets job_id)) =
      Except.error { loc := ["assets", "metadata"],
                     msg := "str type expected" } ∧
    get_processing_status (setJob r job_id (finalState job_id none)) job_id =
      Except.error { status_code := 500, detail := "Internal Server Error" } := by
  have h : finalState job_id none =
      { status := "processing", current_stage := "completed", progress := 1.0,
        is_completed := true, assets := some (successAssets job_id),
        error := none } := rfl
  refine ⟨h, rfl, ?_⟩
  rw [h]
  simp [get_processing_status, getJob_setJob, validateAssets, Assets.items,
        validateStrDict, coerceToStr]

/-- C4: along the whole write trace of a run — without failure, or with a
handler failure injected at any stage — every stored `progress` value lies
in [0, 1] and successive writes never decrease it (the failure write keeps
the previous value). -/
theorem C4_progress_bounded_monotone (job_id msg : String)
    (k : Fin handlerWrites.length) :
    (List.Chain' (· ≤ ·) ((process_image job_id none).map Job.progress) ∧
      ∀ p ∈ (process_image job_id none).map Job.progress, 0 ≤ p ∧ p ≤ 1) ∧
    (List.Chain' (· ≤ ·)
        ((process_image job_id (some (k.val, msg))).map Job.progress) ∧
      ∀ p ∈ (process_image job_id (some (k.val, msg))).map Job.progress,
        0 ≤ p ∧ p ≤ 1) := by
  obtain ⟨kv, hk⟩ := k
  have hk7 : kv < 7 := hk
  constructor
  · have h : (process_image job_id none).map Job.progress =
        [0.1, 0.2, 0.3, 0.5, 0.7, 0.8, 0.9, 0.95, 1.0] := rfl
    rw [h]
    refine ⟨by norm_num [List.chain'_cons], ?_⟩
    intro p hp
    fin_cases hp <;> norm_num
  · interval_cases kv
    · have h : (process_image job_id (some (0, msg))).map Job.progress =
          [0.1, 0.2, 0.2] := rfl
      rw [h]
      refine ⟨by norm_num [List.chain'_cons], ?_⟩
      intro p hp
      fin_cases hp <;> norm_num
    · have h : (process_image job_id (some (1, msg))).map Job.progress =
          [0.1, 0.2, 0.3, 0.3] := rfl
      rw [h]
      refine ⟨by norm_num [List.chain'_cons], ?_⟩
      intro p hp
      fin_cases hp <;> norm_num
    · have h : (process_image job_id (some (2, msg))).map Job.progress =
          [0.1, 0.2, 0.3, 0.5, 0.5] := rfl
      rw [h]
      refine ⟨by norm_num [List.chain'_cons], ?_⟩
      intro p hp
      fin_cases hp <;> norm_num
    · have h : (process_image job_id (some (3, msg))).map Job.progress =
          [0.1, 0.2, 0.3, 0.5, 0.7, 0.7] := rfl
      rw [h]
      refine ⟨by norm_num [List.chain'_cons], ?_⟩
      intro p hp
      fin_cases hp <;> norm_num
    · have h : (process_image job_id (some (4, msg))).map Job.progress =
          [0.1, 0.2, 0.3, 0.5, 0.7, 0.8, 0.8] := rfl
      rw [h]
      refine ⟨by norm_num [List.chain'_cons], ?_⟩
      intro p hp
      fin_cases hp <;> norm_num
    · have h : (process_image job_id (some (5, msg))).map Job.progress =
          [0.1, 0.2, 0.3, 0.5, 0.7, 0.8, 0.9, 0.9] := rfl
      rw [h]
      refine ⟨by norm_num [List.chain'_cons], ?_⟩
      intro p hp
      fin_cases hp <;> norm_num
    · have h : (process_image job_id (some (6, msg))).map Job.progress =
          [0.1, 0.2, 0.3, 0.5, 0.7, 0.8, 0.9, 0.95, 0.95] := rfl
      rw [h]
      refine ⟨by norm_num [List.chain'_cons], ?_⟩
      intro p hp
      fin_cases hp <;> norm_num

/-- C5: `is_completed` is a one-way latch. Along any run's write trace —
without failure or with a failure injected at any stage — it is `false`
from the initialization write through every intermediate write and becomes
`true` exactly at the last (terminal) write, never reverting. -/
theorem C5_is_completed_latch (job_id msg : String)
    (k : Fin handlerWrites.length) :
    (process_image job_id none).map Job.is_completed =
      List.replicate ((process_image job_id none).length - 1) false ++
        [true] ∧
    (process_image job_id (some (k.val, msg))).map Job.is_completed =
      List.replicate ((process_image job_id (some (k.val, msg))).length - 1)
          false ++ [true] := by
  obtain ⟨kv, hk⟩ := k
  have hk7 : kv < 7 := hk
  refine ⟨rfl, ?_⟩
  interval_cases kv <;> rfl

/-- C6, counterexample. The claim says a job terminating through a handler
failure has a non-empty `error`. The `except` branch stores `str(e)`
verbatim, and an exception whose message is the empty string (in Python,
e.g. `raise Exception()`) yields `error = ""`: present (non-None) but
empty. Concretely, a failure at stage index 2 (`mesh_generation`) with
message `""` terminates with `is_completed = true`, `assets` absent, and
`error` equal to the empty string. -/
theorem C6_empty_error_message_counterexample :
    (finalState "j" (some (2, ""))).is_completed = true ∧
    (finalState "j" (some (2, ""))).error = some "" ∧
    (finalState "j" (some (2, ""))).assets = none ∧
    (Option.getD (finalState "j" (some (2, ""))).error "x").length = 0 :=
  ⟨rfl, rfl, rfl, rfl⟩

/-- C6, amended: for every terminal state, `assets` and `error` are
mutually exclusive — a successful run ends with `assets` present and
`error = none`, and a failed run ends with `error` present (equal to the
exception's message, possibly the empty string) and `assets` absent; both
end with `is_completed = true`. -/
theorem C6_amended_assets_error_exclusive (job_id msg : String)
    (k : Fin handlerWrites.length) :
    ((finalState job_id none).assets = some (successAssets job_id) ∧
     (finalState job_id none).error = none ∧
     (finalState job_id none).is_completed = true) ∧
    ((finalState job_id (some (k.val, msg))).error = some msg ∧
     (finalState job_id (some (k.val, msg))).assets = none ∧
     (finalState job_id (some (k.val, msg))).is_completed = true) := by
  obtain ⟨kv, hk⟩ := k
  have hk7 : kv < 7 := hk
  refine ⟨⟨rfl, rfl, rfl⟩, ?_⟩
  interval_cases kv <;> exact ⟨rfl, rfl, rfl⟩

/-- C7: the write trace of a failure-free run visits exactly the
`(name, targetProgress)` pairs of the `STAGES` table, in table order —
each stage's name and target progress are written before that stage's
handler work — and the table's target progress values are strictly
increasing. -/
theorem C7_stage_order_and_targets (job_id : String) :
    (process_image job_id none).map (fun j => (j.current_stage, j.progress)) =
      STAGES.map (fun s => (s.name, s.targetProgress)) ∧
    List.Chain' (· < ·) (STAGES.map StageDef.targetProgress) := by
  refine ⟨rfl, ?_⟩
  have h : STAGES.map StageDef.targetProgress =
      [0.1, 0.2, 0.3, 0.5, 0.7, 0.8, 0.9, 0.95, 1.0] := rfl
  rw [h]
  norm_num [List.chain'_cons]

/-- C8: for every registry and identifier not present in it,
`get_processing_status` fails with the not-found condition
(HTTP 404, "Job not found") and never returns any `JobStatus` value. -/
theorem C8_unknown_id_not_found (r : Jobs) (job_id : String)
    (h : getJob r job_id = none) :
    get_processing_status r job_id =
      Except.error { status_code := 404, detail := "Job not found" } ∧
    ∀ s, get_processing_status r job_id ≠ Except.ok s := by
  refine ⟨by simp [get_processing_status, h], ?_⟩
  intro s
  simp [get_processing_status, h]

/-- C8, witness: the empty registry does not contain "nope", and querying
it yields the 404 error. -/
theorem C8_unknown_id_not_found_witness :
    get_processing_status [] "nope" =
      Except.error { status_code := 404, detail := "Job not found" } :=
  (C8_unknown_id_not_found [] "nope" rfl).1

/-- C9, counterexample. The claim says creating a job under an existing
identifier fails with `DuplicateJobError` and leaves the stored Job
unchanged. The code has no duplicate check: the initialization write is a
plain dict assignment. Concretely, with "j" stored in a failed terminal
state (`is_completed = true`), running `createJob` for "j" succeeds and
replaces the entry with the fresh initial state
(`is_completed = false`) — the old state is lost. -/
theorem C9_duplicate_create_overwrites_counterexample :
    getJob [("j", failJob "boom" initJob)] "j" =
      some (failJob "boom" initJob) ∧
    (failJob "boom" initJob).is_completed = true ∧
    getJob (createJob [("j", failJob "boom" initJob)] "j") "j" =
      some initJob ∧
    initJob.is_completed = false ∧
    failJob "boom" initJob ≠ initJob :=
  ⟨rfl, rfl, rfl, rfl, fun h => by simp [failJob, initJob] at h⟩

/-- C9, amended: creating a job under an identifier that already exists in
the registry does not fail — no `DuplicateJobError` exists anywhere in the
code — and unconditionally overwrites the stored Job with the fresh
initial state. -/
theorem C9_amended_create_overwrites (r : Jobs) (id : String) :
    getJob (createJob r id) id = some initJob :=
  getJob_setJob r id initJob

/-- C10: for every registry, job_id and filename, the
`GET /assets/{job_id}/{filename}` handler returns the success placeholder
message, which mentions both the filename and the job_id; the result is
independent of the registry (the handler never consults it) and is never
a not-found or any other error — even for identifiers never created,
in progress, or terminated with an error. -/
theorem C10_asset_endpoint_always_ok (r r2 : Jobs) (job_id filename : String) :
    get_asset r job_id filename =
      Except.ok ("Asset " ++ filename ++ " for job " ++ job_id) ∧
    filename.data <:+: ("Asset " ++ filename ++ " for job " ++ job_id).data ∧
    job_id.data <:+: ("Asset " ++ filename ++ " for job " ++ job_id).data ∧
    get_asset r job_id filename = get_asset r2 job_id filename ∧
    ∀ e, get_asset r job_id filename ≠ Except.error e := by
  refine ⟨rfl, ?_, ?_, rfl, ?_⟩
  · exact ⟨"Asset ".data, (" for job " ++ job_id).data,
      by simp [String.data_append, List.append_assoc]⟩
  · exact ⟨("Asset " ++ filename ++ " for job ").data, [],
      by simp [String.data_append, List.append_assoc]⟩
  · intro e
    simp [get_asset]

end BackendServer
